import Mathlib

/-!
Shallow embedding of the WhatsApp outbound-notification dispatcher
(`src/index.js` of Andrew-Santos/automacao-whatsapp).

The embedded pieces are:

* `gerarNumerosAlternativos` (index.js lines 129-147): the pure phone-number
  normalizer.  JS strings become Lean `String`s; the regex `\D` removal is
  `List.filter Char.isDigit` over the character data (the JS regex `\D` with no
  flags is exactly the complement of `[0-9]`).
* the per-contact part of `loopDeEnvio` (lines 73-124): the candidate loop with
  its `try/catch`, the success write (lines 92-98, inside the `try`), the
  failure write (lines 113-119, outside any `try`) and the jittered delay
  (line 123).  External collaborators (`client.getNumberId`,
  `client.sendMessage`, the two Supabase `update` calls) are modelled by an
  environment `Ambiente` of oracles; each awaited call either returns a value
  (`ExtResult.ok`) or throws / rejects (`ExtResult.exn`), matching the spec's
  collaborator contracts `validate → bool|error`, `send → success|error`,
  `markOutcome → ack|error`.  Oracles are keyed by the candidate identifier
  string, which determines every call uniquely because each candidate is
  visited at most once per contact.  The step returns the ordered trace of
  external events plus whether an exception escaped the per-contact step.
* the poll branch of `loopDeEnvio` (lines 44-64): fetch error → fixed 10 s
  wait, empty batch → fixed 30 s wait, otherwise dispatch the batch.
* `delayAleatorio` (lines 156-161): `Math.floor(Math.random() * (30000 -
  10000 + 1)) + 10000`, with `Math.random()`'s result in `[0,1)` modelled as a
  rational (every IEEE double in `[0,1)` is a rational, and on this range the
  JS arithmetic is exact enough that the product stays below 20001).

Contacts are represented by their `telefone` field, the only field the
embedded control flow reads; the store writes in the code are keyed by the
current contact's `id`, which the trace leaves implicit since every theorem
speaks about a single contact's processing step.
-/

/-- Outcome of one awaited external call: a returned value, or a thrown
exception / rejected promise. -/
inductive ExtResult (α : Type) where
  | ok (a : α)
  | exn
  deriving DecidableEq, Repr

/-- The digit characters of a string, in order: the JS
`telefone.replace(/\D/g, '')` of index.js line 131, viewed as a character
list. -/
def somenteDigitos (telefone : String) : List Char :=
  telefone.data.filter Char.isDigit

/-- Embedding of `gerarNumerosAlternativos` (index.js lines 129-147):
strip non-digits; fewer than 10 digits → no candidates; otherwise split into
2-digit DDD and body, build the body without and with a leading `'9'`, and
return `["55" + ddd + sem9, "55" + ddd + com9]`. -/
def gerarNumerosAlternativos (telefone : String) : List String :=
  let limpo := somenteDigitos telefone
  if limpo.length < 10 then []
  else
    let ddd := limpo.take 2
    let corpo := limpo.drop 2
    let com9 := if corpo.head? = some '9' then corpo else '9' :: corpo
    let sem9 := if corpo.head? = some '9' then corpo.tail else corpo
    [String.mk ('5' :: '5' :: (ddd ++ sem9)), String.mk ('5' :: '5' :: (ddd ++ com9))]

/-- Oracles for the external collaborators used by the per-contact step,
keyed by the candidate identifier they are called with:
`getNumberId`/`sendMessage` are the delivery client (index.js lines 82, 88),
`atualizarSucesso` is the Supabase success update (lines 92-98, inside the
`try`), `atualizarFalha` the Supabase failure update (lines 113-119, outside
any `try`). -/
structure Ambiente where
  getNumberId : String → ExtResult Bool
  sendMessage : String → ExtResult Unit
  atualizarSucesso : String → ExtResult Unit
  atualizarFalha : ExtResult Unit

/-- Observable events of the per-contact step, in program order. -/
inductive Evento where
  | chamadaValidacao (numero : String)
  | chamadaEnvio (numero : String)
  | envioOk (numero : String)
  | escritaSucesso (mensagem : String)
  | escritaFalha (mensagem : String)
  | esperaJitter
  deriving DecidableEq, Repr

/-- Does the event record a completed store write (success or failure)? -/
def ehEscrita : Evento → Bool
  | .escritaSucesso _ => true
  | .escritaFalha _ => true
  | _ => false

/-- Does the event record an invocation of `client.sendMessage`? -/
def ehChamadaEnvio : Evento → Bool
  | .chamadaEnvio _ => true
  | _ => false

/-- Does the event record a delivery-client call (`getNumberId` or
`sendMessage`)? -/
def ehChamadaCliente : Evento → Bool
  | .chamadaValidacao _ => true
  | .chamadaEnvio _ => true
  | _ => false

/-- Result of the inner candidate loop (index.js lines 79-106): the trace of
events and the final value of the `enviado` flag. -/
structure ResultadoTentativas where
  eventos : List Evento
  enviado : Bool
  deriving DecidableEq, Repr

/-- The candidate loop `for (const numero of tentativas)` (index.js lines
79-106).  Per candidate: `getNumberId`; a throw is caught (continue), a falsy
result continues; on a truthy result `sendMessage`; a throw is caught
(continue); on success the Supabase success update runs still inside the
`try`: a throw is caught (continue), success records the write with
`mensagem = legenda`, sets `enviado = true` and breaks. -/
def tentarNumeros (amb : Ambiente) (legenda : String) : List String → ResultadoTentativas
  | [] => ⟨[], false⟩
  | numero :: resto =>
    match amb.getNumberId numero with
    | .exn =>
        let r := tentarNumeros amb legenda resto
        ⟨.chamadaValidacao numero :: r.eventos, r.enviado⟩
    | .ok false =>
        let r := tentarNumeros amb legenda resto
        ⟨.chamadaValidacao numero :: r.eventos, r.enviado⟩
    | .ok true =>
      match amb.sendMessage numero with
      | .exn =>
          let r := tentarNumeros amb legenda resto
          ⟨.chamadaValidacao numero :: .chamadaEnvio numero :: r.eventos, r.enviado⟩
      | .ok _ =>
        match amb.atualizarSucesso numero with
        | .exn =>
            let r := tentarNumeros amb legenda resto
            ⟨.chamadaValidacao numero :: .chamadaEnvio numero :: .envioOk numero :: r.eventos,
              r.enviado⟩
        | .ok _ =>
            ⟨[.chamadaValidacao numero, .chamadaEnvio numero, .envioOk numero,
              .escritaSucesso legenda], true⟩

/-- The fixed diagnostic message written on the failure path
(index.js line 117). -/
def mensagemErro : String := "Erro: número inválido ou não encontrado no WhatsApp"

/-- Result of processing one contact: the event trace and whether an
exception escaped the per-contact step. -/
structure ResultadoContato where
  eventos : List Evento
  excecao : Bool
  deriving DecidableEq, Repr

/-- One iteration of `for (const contato of contatos)` (index.js lines
73-124): normalize the phone, run the candidate loop, and if `enviado` is
still false run the failure-path Supabase update — which sits outside any
`try`, so a throw there escapes the per-contact step and skips the jittered
delay of line 123; otherwise the step ends with the jittered delay. -/
def processarContato (amb : Ambiente) (legenda telefone : String) : ResultadoContato :=
  let r := tentarNumeros amb legenda (gerarNumerosAlternativos telefone)
  if r.enviado then ⟨r.eventos ++ [.esperaJitter], false⟩
  else
    match amb.atualizarFalha with
    | .exn => ⟨r.eventos, true⟩
    | .ok _ => ⟨r.eventos ++ [.escritaFalha mensagemErro, .esperaJitter], false⟩

/-- The batch loop over the fetched contacts (each given by its `telefone`),
processed strictly sequentially; an escaped exception aborts the batch. -/
def processarContatos (amb : Ambiente) (legenda : String) : List String → List Evento × Bool
  | [] => ([], false)
  | telefone :: resto =>
    let r := processarContato amb legenda telefone
    if r.excecao then (r.eventos, true)
    else
      let (evs, e) := processarContatos amb legenda resto
      (r.eventos ++ evs, e)

/-- What the Supabase fetch of index.js lines 46-50 produced: an error, or
the list of pending contacts (each given by its `telefone`). -/
inductive ResultadoBusca where
  | erro
  | dados (telefones : List String)
  deriving DecidableEq, Repr

/-- Result of one iteration of the outer `while (true)` loop: the event
trace, the fixed wait before re-polling (`some 10000` on fetch error,
`some 30000` on an empty batch, `none` when a batch was dispatched), and
whether an exception escaped. -/
structure ResultadoIteracao where
  eventos : List Evento
  espera : Option Nat
  excecao : Bool
  deriving DecidableEq, Repr

/-- One iteration of the outer loop of `loopDeEnvio` (index.js lines 44-125):
on fetch error wait 10000 ms and re-poll (line 55); on an empty batch wait
30000 ms and re-poll (line 62); otherwise dispatch the batch. -/
def iteracaoLoop (amb : Ambiente) (legenda : String) : ResultadoBusca → ResultadoIteracao
  | .erro => ⟨[], some 10000, false⟩
  | .dados telefones =>
    if telefones.isEmpty then ⟨[], some 30000, false⟩
    else
      let (evs, e) := processarContatos amb legenda telefones
      ⟨evs, none, e⟩

/-- Embedding of `delayAleatorio` (index.js lines 156-161):
`Math.floor(r * (30000 - 10000 + 1)) + 10000` for a draw `r` of
`Math.random()`. -/
def tempoAleatorio (r : ℚ) : ℤ :=
  ⌊r * (30000 - 10000 + 1)⌋ + 10000

/-- The subscriber part with the leading mobile-prefix digit `9` removed, as
the spec words it for the first candidate form. -/
def removerNoveInicial (corpo : List Char) : List Char :=
  if corpo.head? = some '9' then corpo.tail else corpo

/-- Does the whole per-candidate chain succeed on this candidate: truthy
`getNumberId`, successful `sendMessage`, and a success update that completes
without throwing? -/
def candidatoSucede (amb : Ambiente) (numero : String) : Prop :=
  amb.getNumberId numero = .ok true ∧ amb.sendMessage numero = .ok () ∧
    amb.atualizarSucesso numero = .ok ()

instance (amb : Ambiente) (numero : String) : Decidable (candidatoSucede amb numero) := by
  unfold candidatoSucede; infer_instance

/-! Helper lemmas about the candidate loop. -/

theorem tentarNumeros_escritas (amb : Ambiente) (legenda : String) (l : List String) :
    (tentarNumeros amb legenda l).eventos.filter ehEscrita =
      if (tentarNumeros amb legenda l).enviado then [Evento.escritaSucesso legenda] else [] := by
  induction l with
  | nil => simp [tentarNumeros]
  | cons numero resto ih =>
    cases h1 : amb.getNumberId numero with
    | exn => simp [tentarNumeros, h1, ehEscrita, ih]
    | ok b =>
      cases b with
      | false => simp [tentarNumeros, h1, ehEscrita, ih]
      | true =>
        cases h2 : amb.sendMessage numero with
        | exn => simp [tentarNumeros, h1, h2, ehEscrita, ih]
        | ok u =>
          cases u
          cases h3 : amb.atualizarSucesso numero with
          | exn => simp [tentarNumeros, h1, h2, h3, ehEscrita, ih]
          | ok v => cases v; simp [tentarNumeros, h1, h2, h3, ehEscrita]

theorem tentarNumeros_sem_sucesso (amb : Ambiente) (legenda : String) : ∀ l : List String,
    (∀ n ∈ l, candidatoSucede amb n = false) →
    (tentarNumeros amb legenda l).enviado = false := by
  intro l
  induction l with
  | nil => intro _; simp [tentarNumeros]
  | cons numero resto ih =>
    intro h
    have hn := h numero (by simp)
    have ih2 := ih (fun n hm => h n (by simp [hm]))
    cases h1 : amb.getNumberId numero with
    | exn => simp [tentarNumeros, h1, ih2]
    | ok b =>
      cases b with
      | false => simp [tentarNumeros, h1, ih2]
      | true =>
        cases h2 : amb.sendMessage numero with
        | exn => simp [tentarNumeros, h1, h2, ih2]
        | ok u =>
          cases u
          cases h3 : amb.atualizarSucesso numero with
          | exn => simp [tentarNumeros, h1, h2, h3, ih2]
          | ok v =>
            cases v
            exfalso
            simp [candidatoSucede, h1, h2, h3] at hn

theorem tentarNumeros_valida_cabeca (amb : Ambiente) (legenda numero : String)
    (resto : List String) :
    Evento.chamadaValidacao numero ∈ (tentarNumeros amb legenda (numero :: resto)).eventos := by
  cases h1 : amb.getNumberId numero with
  | exn => simp [tentarNumeros, h1]
  | ok b =>
    cases b with
    | false => simp [tentarNumeros, h1]
    | true =>
      cases h2 : amb.sendMessage numero with
      | exn => simp [tentarNumeros, h1, h2]
      | ok u =>
        cases u
        cases h3 : amb.atualizarSucesso numero with
        | exn => simp [tentarNumeros, h1, h2, h3]
        | ok v => cases v; simp [tentarNumeros, h1, h2, h3]

/-! Concrete environments used by witnesses and counterexamples. -/

/-- Test environment: only the candidate `5511987654321` is a reachable
WhatsApp account; sends and both store writes always complete. -/
def ambTeste : Ambiente where
  getNumberId := fun n => if n = "5511987654321" then .ok true else .ok false
  sendMessage := fun _ => .ok ()
  atualizarSucesso := fun _ => .ok ()
  atualizarFalha := .ok ()

/-- Hostile environment for the failure path: no candidate validates, and the
failure-path Supabase update throws. -/
def ambFalhaLanca : Ambiente where
  getNumberId := fun _ => .ok false
  sendMessage := fun _ => .ok ()
  atualizarSucesso := fun _ => .ok ()
  atualizarFalha := .exn

/-- Environment where the first candidate `551187654321` validates and the
send succeeds, but the success-path Supabase update throws; the second
candidate fails validation; the failure-path update completes. -/
def ambEscritaLanca : Ambiente where
  getNumberId := fun n => if n = "551187654321" then .ok true else .ok false
  sendMessage := fun _ => .ok ()
  atualizarSucesso := fun n => if n = "551187654321" then .exn else .ok ()
  atualizarFalha := .ok ()

/-- Claim C2: for every raw phone string with at least 10 digit characters,
the Normalizer returns exactly two candidates, in this order: first
`55` + 2-digit area code + subscriber digits with the leading mobile-prefix
digit `9` removed, then the same form with a leading `9` guaranteed present;
both share the `55` + area prefix and differ only in that leading `9`. -/
theorem c2_dois_candidatos (telefone : String)
    (h : 10 ≤ (somenteDigitos telefone).length) :
    ((somenteDigitos telefone).take 2).length = 2 ∧
    gerarNumerosAlternativos telefone =
      [String.mk ('5' :: '5' :: ((somenteDigitos telefone).take 2 ++
          removerNoveInicial ((somenteDigitos telefone).drop 2))),
       String.mk ('5' :: '5' :: ((somenteDigitos telefone).take 2 ++
          '9' :: removerNoveInicial ((somenteDigitos telefone).drop 2)))] := by
  have hlt : ¬ (somenteDigitos telefone).length < 10 := by omega
  constructor
  · rw [List.length_take]; omega
  · simp only [gerarNumerosAlternativos, removerNoveInicial, if_neg hlt]
    cases hcorpo : (somenteDigitos telefone).drop 2 with
    | nil =>
      exfalso
      have hlen := congrArg List.length hcorpo
      simp [List.length_drop] at hlen
      omega
    | cons a t =>
      by_cases h9 : a = '9'
      · subst h9; simp
      · simp [h9]

theorem c2_witness :
    10 ≤ (somenteDigitos "(11) 98765-4321").length ∧
    gerarNumerosAlternativos "(11) 98765-4321" =
      [String.mk ('5' :: '5' :: ((somenteDigitos "(11) 98765-4321").take 2 ++
          removerNoveInicial ((somenteDigitos "(11) 98765-4321").drop 2))),
       String.mk ('5' :: '5' :: ((somenteDigitos "(11) 98765-4321").take 2 ++
          '9' :: removerNoveInicial ((somenteDigitos "(11) 98765-4321").drop 2)))] :=
  ⟨by decide, (c2_dois_candidatos "(11) 98765-4321" (by decide)).2⟩

/-- Claim C3: for every raw phone string with fewer than 10 digit characters,
the Normalizer returns an empty candidate list, and processing such a contact
issues no delivery-client call (the contact is never attempted). -/
theorem c3_poucos_digitos (telefone : String)
    (h : (somenteDigitos telefone).length < 10) :
    gerarNumerosAlternativos telefone = [] ∧
    ∀ (amb : Ambiente) (legenda : String),
      (processarContato amb legenda telefone).eventos.filter ehChamadaCliente = [] := by
  have hg : gerarNumerosAlternativos telefone = [] := by
    simp only [gerarNumerosAlternativos, if_pos h]
  refine ⟨hg, fun amb legenda => ?_⟩
  cases hf : amb.atualizarFalha with
  | exn => simp [processarContato, hg, tentarNumeros, hf]
  | ok u => cases u; simp [processarContato, hg, tentarNumeros, hf, ehChamadaCliente]

theorem c3_witness :
    (somenteDigitos "123").length < 10 ∧
    gerarNumerosAlternativos "123" = [] ∧
    (processarContato ambTeste "oi" "123").eventos.filter ehChamadaCliente = [] :=
  ⟨by decide, (c3_poucos_digitos "123" (by decide)).1,
   (c3_poucos_digitos "123" (by decide)).2 ambTeste "oi"⟩

/-- Claim C8: the Normalizer is a deterministic pure function — it is embedded
as a total Lean function with no state, so two calls on equal raw phone
strings return equal candidate lists. -/
theorem c8_determinismo (t1 t2 : String) (h : t1 = t2) :
    gerarNumerosAlternativos t1 = gerarNumerosAlternativos t2 := by rw [h]

theorem c8_witness :
    "(11) 98765-4321" = "(11) 98765-4321" ∧
    gerarNumerosAlternativos "(11) 98765-4321" = gerarNumerosAlternativos "(11) 98765-4321" :=
  ⟨rfl, c8_determinismo "(11) 98765-4321" "(11) 98765-4321" rfl⟩

/-- Claim C10: the Normalizer's output depends only on the sequence of digit
characters of its input — two raw strings with the same digits in the same
order yield identical candidate lists. -/
theorem c10_apenas_digitos (t1 t2 : String)
    (h : somenteDigitos t1 = somenteDigitos t2) :
    gerarNumerosAlternativos t1 = gerarNumerosAlternativos t2 := by
  simp only [gerarNumerosAlternativos]
  rw [h]

theorem c10_witness :
    somenteDigitos "(11)98765-4321" = somenteDigitos "11 98765 4321" ∧
    gerarNumerosAlternativos "(11)98765-4321" = gerarNumerosAlternativos "11 98765 4321" :=
  ⟨by decide, c10_apenas_digitos "(11)98765-4321" "11 98765 4321" (by decide)⟩

/-- Claim C1, counterexample to the claim as stated: with a contact whose two
candidates both fail validation and a failure-path store write that throws,
the per-contact step lets the exception escape and completes zero outcome
writes, because the Supabase update of index.js lines 113-119 sits outside
any `try`. -/
theorem c1_contraexemplo :
    (processarContato ambFalhaLanca "oi" "11912345678").excecao = true ∧
    ((processarContato ambFalhaLanca "oi" "11912345678").eventos.filter ehEscrita).length
      = 0 := by
  decide

/-- Claim C1 as amended: exceptions thrown by candidate validation, send, or
the success-path store write are all caught inside the per-candidate
`try/catch`; provided the failure-path store write completes without
throwing, every contact processing attempt ends with no escaped exception and
exactly one completed outcome write (success or failure). -/
theorem c1_uma_escrita (amb : Ambiente) (legenda telefone : String)
    (h : amb.atualizarFalha = .ok ()) :
    (processarContato amb legenda telefone).excecao = false ∧
    ((processarContato amb legenda telefone).eventos.filter ehEscrita).length = 1 := by
  have hesc := tentarNumeros_escritas amb legenda (gerarNumerosAlternativos telefone)
  cases he : (tentarNumeros amb legenda (gerarNumerosAlternativos telefone)).enviado with
  | false =>
    rw [he] at hesc
    simp only [if_neg Bool.false_ne_true] at hesc
    simp [processarContato, he, h, List.filter_append, hesc, ehEscrita]
  | true =>
    rw [he] at hesc
    simp only [if_pos rfl] at hesc
    simp [processarContato, he, List.filter_append, hesc, ehEscrita]

theorem c1_witness :
    ambTeste.atualizarFalha = .ok () ∧
    (processarContato ambTeste "oi" "(11) 98765-4321").excecao = false ∧
    ((processarContato ambTeste "oi" "(11) 98765-4321").eventos.filter ehEscrita).length = 1 :=
  ⟨rfl, c1_uma_escrita ambTeste "oi" "(11) 98765-4321" rfl⟩

/-- Claim C4: with two candidates where the first fails validation and the
second passes validation, whose send succeeds and whose success write
completes, `sendMessage` is invoked exactly once (on the second candidate),
iteration stops right after the success, and the one recorded outcome is a
success write carrying the caption actually sent. -/
theorem c4_segundo_candidato (amb : Ambiente) (legenda telefone n1 n2 : String)
    (hc : gerarNumerosAlternativos telefone = [n1, n2])
    (hv1 : amb.getNumberId n1 = .ok false)
    (hv2 : amb.getNumberId n2 = .ok true)
    (hs : amb.sendMessage n2 = .ok ())
    (hm : amb.atualizarSucesso n2 = .ok ()) :
    (processarContato amb legenda telefone).eventos =
      [.chamadaValidacao n1, .chamadaValidacao n2, .chamadaEnvio n2, .envioOk n2,
       .escritaSucesso legenda, .esperaJitter] ∧
    (processarContato amb legenda telefone).eventos.filter ehChamadaEnvio =
      [.chamadaEnvio n2] ∧
    (processarContato amb legenda telefone).eventos.filter ehEscrita =
      [.escritaSucesso legenda] := by
  refine ⟨?_, ?_, ?_⟩ <;>
    simp [processarContato, hc, tentarNumeros, hv1, hv2, hs, hm, ehChamadaEnvio, ehEscrita]

theorem c4_witness :
    gerarNumerosAlternativos "(11) 98765-4321" = ["551187654321", "5511987654321"] ∧
    ambTeste.getNumberId "551187654321" = .ok false ∧
    ambTeste.getNumberId "5511987654321" = .ok true ∧
    (processarContato ambTeste "oi" "(11) 98765-4321").eventos =
      [.chamadaValidacao "551187654321", .chamadaValidacao "5511987654321",
       .chamadaEnvio "5511987654321", .envioOk "5511987654321",
       .escritaSucesso "oi", .esperaJitter] :=
  ⟨by decide, by decide, by decide,
   (c4_segundo_candidato ambTeste "oi" "(11) 98765-4321" "551187654321" "5511987654321"
      (by decide) (by decide) (by decide) (by decide) (by decide)).1⟩

/-- Claim C5: whenever no candidate of a contact completes the whole
validate-send-mark chain — in particular when the candidate list is empty, in
which case no delivery-client call happens at all — the step records exactly
one failure write carrying the fixed diagnostic message. -/
theorem c5_escrita_falha (amb : Ambiente) (legenda telefone : String)
    (h : ∀ n ∈ gerarNumerosAlternativos telefone, candidatoSucede amb n = false)
    (hf : amb.atualizarFalha = .ok ()) :
    (processarContato amb legenda telefone).eventos.filter ehEscrita =
      [.escritaFalha mensagemErro] ∧
    (processarContato amb legenda telefone).excecao = false ∧
    (gerarNumerosAlternativos telefone = [] →
      (processarContato amb legenda telefone).eventos =
        [.escritaFalha mensagemErro, .esperaJitter]) := by
  have he := tentarNumeros_sem_sucesso amb legenda _ h
  have hesc := tentarNumeros_escritas amb legenda (gerarNumerosAlternativos telefone)
  rw [he] at hesc
  simp only [if_neg Bool.false_ne_true] at hesc
  refine ⟨?_, ?_, fun hnil => ?_⟩
  · simp [processarContato, he, hf, List.filter_append, hesc, ehEscrita]
  · simp [processarContato, he, hf]
  · simp [processarContato, hnil, tentarNumeros, hf]

theorem c5_witness :
    (∀ n ∈ gerarNumerosAlternativos "123", candidatoSucede ambTeste n = false) ∧
    (processarContato ambTeste "oi" "123").eventos.filter ehEscrita =
      [.escritaFalha mensagemErro] ∧
    (processarContato ambTeste "oi" "123").eventos =
      [.escritaFalha mensagemErro, .esperaJitter] :=
  ⟨by decide,
   (c5_escrita_falha ambTeste "oi" "123" (by decide) (by decide)).1,
   (c5_escrita_falha ambTeste "oi" "123" (by decide) (by decide)).2.2 (by decide)⟩

/-- Claim C6: one outer-loop iteration on a fetch error waits a fixed
10000 ms and re-polls, and on an empty batch waits a fixed 30000 ms and
re-polls; in both branches the event trace is empty — no store write and no
delivery-client call happens before the next fetch. -/
theorem c6_espera_fixa (amb : Ambiente) (legenda : String) :
    iteracaoLoop amb legenda .erro = ⟨[], some 10000, false⟩ ∧
    iteracaoLoop amb legenda (.dados []) = ⟨[], some 30000, false⟩ :=
  ⟨rfl, rfl⟩

/-- Claim C7: for every draw of the random source in `[0,1)` the jittered
delay `Math.floor(r * (30000 - 10000 + 1)) + 10000` lies in
`[10000, 30000]` milliseconds inclusive, and every per-contact processing
step that does not end in an escaped exception ends with that jittered wait,
whatever the outcome was. -/
theorem c7_jitter :
    (∀ r : ℚ, 0 ≤ r → r < 1 →
      10000 ≤ tempoAleatorio r ∧ tempoAleatorio r ≤ 30000) ∧
    (∀ (amb : Ambiente) (legenda telefone : String),
      (processarContato amb legenda telefone).excecao = false →
      ∃ evs, (processarContato amb legenda telefone).eventos =
        evs ++ [.esperaJitter]) := by
  constructor
  · intro r h0 h1
    unfold tempoAleatorio
    have hlo : (0 : ℤ) ≤ ⌊r * (30000 - 10000 + 1)⌋ :=
      Int.floor_nonneg.mpr (mul_nonneg h0 (by norm_num))
    have hhi : ⌊r * (30000 - 10000 + 1)⌋ < 20001 := by
      apply Int.floor_lt.mpr
      have hm : r * (30000 - 10000 + 1) < 1 * (30000 - 10000 + 1 : ℚ) :=
        mul_lt_mul_of_pos_right h1 (by norm_num)
      push_cast
      linarith
    omega
  · intro amb legenda telefone hx
    cases he : (tentarNumeros amb legenda (gerarNumerosAlternativos telefone)).enviado with
    | true =>
      exact ⟨(tentarNumeros amb legenda (gerarNumerosAlternativos telefone)).eventos,
        by simp [processarContato, he]⟩
    | false =>
      cases hf : amb.atualizarFalha with
      | exn => simp [processarContato, he, hf] at hx
      | ok u =>
        cases u
        refine ⟨(tentarNumeros amb legenda (gerarNumerosAlternativos telefone)).eventos ++
          [.escritaFalha mensagemErro], ?_⟩
        simp [processarContato, he, hf]

theorem c7_witness :
    (10000 ≤ tempoAleatorio 0 ∧ tempoAleatorio 0 ≤ 30000) ∧
    ∃ evs, (processarContato ambTeste "oi" "123").eventos = evs ++ [.esperaJitter] :=
  ⟨c7_jitter.1 0 (by norm_num) (by norm_num),
   c7_jitter.2 ambTeste "oi" "123" (by decide)⟩

/-- Claim C9: success marking is not atomic with sending — when the first
candidate validates, its send succeeds, but the success-path store write
throws, the exception is caught inside the candidate loop, no success write
is recorded, iteration advances to the second candidate, and when the second
candidate fails too the contact ends recorded as a failure even though a
message was delivered. -/
theorem c9_escrita_nao_atomica (amb : Ambiente) (legenda telefone n1 n2 : String)
    (hc : gerarNumerosAlternativos telefone = [n1, n2])
    (hv1 : amb.getNumberId n1 = .ok true)
    (hs1 : amb.sendMessage n1 = .ok ())
    (hm1 : amb.atualizarSucesso n1 = .exn)
    (h2 : candidatoSucede amb n2 = false)
    (hf : amb.atualizarFalha = .ok ()) :
    Evento.envioOk n1 ∈ (processarContato amb legenda telefone).eventos ∧
    Evento.chamadaValidacao n2 ∈ (processarContato amb legenda telefone).eventos ∧
    (processarContato amb legenda telefone).eventos.filter ehEscrita =
      [.escritaFalha mensagemErro] ∧
    (processarContato amb legenda telefone).excecao = false := by
  have he2 : (tentarNumeros amb legenda [n2]).enviado = false :=
    tentarNumeros_sem_sucesso amb legenda [n2] (by simpa using h2)
  have hesc2 := tentarNumeros_escritas amb legenda [n2]
  rw [he2] at hesc2
  simp only [if_neg Bool.false_ne_true] at hesc2
  have hmem := tentarNumeros_valida_cabeca amb legenda n2 ([] : List String)
  have hstep : tentarNumeros amb legenda [n1, n2] =
      ⟨.chamadaValidacao n1 :: .chamadaEnvio n1 :: .envioOk n1 ::
          (tentarNumeros amb legenda [n2]).eventos,
        (tentarNumeros amb legenda [n2]).enviado⟩ := by
    conv_lhs => rw [tentarNumeros.eq_def]
    simp only [hv1, hs1, hm1]
  have hproc : processarContato amb legenda telefone =
      ⟨.chamadaValidacao n1 :: .chamadaEnvio n1 :: .envioOk n1 ::
          ((tentarNumeros amb legenda [n2]).eventos ++
            [.escritaFalha mensagemErro, .esperaJitter]), false⟩ := by
    simp only [processarContato]
    rw [hc, hstep]
    simp [he2, hf]
  refine ⟨?_, ?_, ?_, ?_⟩
  · rw [hproc]; simp
  · rw [hproc]; simp [hmem]
  · rw [hproc]; simp [ehEscrita, List.filter_append, hesc2]
  · rw [hproc]

theorem c9_witness :
    gerarNumerosAlternativos "(11) 98765-4321" = ["551187654321", "5511987654321"] ∧
    ambEscritaLanca.atualizarSucesso "551187654321" = .exn ∧
    Evento.envioOk "551187654321" ∈
      (processarContato ambEscritaLanca "oi" "(11) 98765-4321").eventos ∧
    (processarContato ambEscritaLanca "oi" "(11) 98765-4321").eventos.filter ehEscrita =
      [.escritaFalha mensagemErro] :=
  ⟨by decide, by decide,
   (c9_escrita_nao_atomica ambEscritaLanca "oi" "(11) 98765-4321" "551187654321"
      "5511987654321" (by decide) (by decide) (by decide) (by decide) (by decide)
      (by decide)).1,
   (c9_escrita_nao_atomica ambEscritaLanca "oi" "(11) 98765-4321" "551187654321"
      "5511987654321" (by decide) (by decide) (by decide) (by decide) (by decide)
      (by decide)).2.2.1⟩
